import Mathlib

/-!
Verification development for the location-assistant backend.

The definitions below are a shallow embedding of the Python source:
  - `src/backend/assistant/location_parser.py` (coordinate extraction cascade),
  - `src/backend/assistant/location_assistant.py` (intent routing and the
    bounded tool-calling loop),
  - `src/backend/services/places_service.py` (place search),
  - `src/backend/assistant/analyzers/land_analyzer.py` and
    `local_business_analyzer.py` (category aggregation),
  - `src/backend/app.py` (the per-turn request handler and its session
    bookkeeping, with the Redis store for a single session modelled as an
    `Option SessionData` value threaded through the handler).

Numeric values parsed from text are modelled as rationals; network calls
(geocoding, the completion provider, the places HTTP request, environmental
data) are modelled as function parameters so that theorems quantify over
provider behaviour.  String formatting of numbers inside human-readable
message strings uses `toString` on rationals where Python formats floats;
no claim depends on that rendering.
-/

/-- A single-quote character as a string, used to build message strings. -/
def squo : String := String.mk [Char.ofNat 39]

/-- Whitespace recognised by Python `str.strip` and the regex class `\s`
(ASCII part, which is all the inputs here use). -/
def isPySpace (c : Char) : Bool :=
  c = ' ' || c = Char.ofNat 9 || c = Char.ofNat 10 || c = Char.ofNat 13 ||
  c = Char.ofNat 11 || c = Char.ofNat 12

/-- Python `str.strip` on a character list: drop whitespace at both ends. -/
def pyStripChars (cs : List Char) : List Char :=
  ((cs.dropWhile isPySpace).reverse.dropWhile isPySpace).reverse

/-- Python `str.strip` on strings. -/
def pyStrip (s : String) : String := String.mk (pyStripChars s.data)

/-- Python `str.lower` (ASCII inputs). -/
def pyLower (s : String) : String := String.mk (s.data.map Char.toLower)

/-- Whether `pat` occurs at the head of `cs`. -/
def seqStartsWith : List Char → List Char → Bool
  | [], _ => true
  | _ :: _, [] => false
  | p :: ps, c :: cs => p = c && seqStartsWith ps cs

/-- Whether `pat` occurs anywhere inside `cs` (Python `pat in cs`). -/
def seqContains (pat : List Char) : List Char → Bool
  | [] => seqStartsWith pat []
  | c :: cs => seqStartsWith pat (c :: cs) || seqContains pat cs

/-- Python substring test `needle in hay`. -/
def pyIn (needle hay : String) : Bool := seqContains needle.data hay.data

/-- Remove every occurrence of the non-empty pattern `pat` from `cs`,
scanning left to right (Python `str.replace(pat, "")`).  The first argument
is fuel; callers pass the length of `cs`. -/
def removeAllAux (pat : List Char) : Nat → List Char → List Char
  | 0, cs => cs
  | fuel + 1, cs =>
    match cs with
    | [] => []
    | c :: rest =>
      if seqStartsWith pat cs && !pat.isEmpty then
        removeAllAux pat fuel (cs.drop pat.length)
      else
        c :: removeAllAux pat fuel rest

/-- Python `str.replace(pat, "")` on character lists. -/
def removeAll (cs pat : List Char) : List Char := removeAllAux pat cs.length cs

/-- Numeric value of a list of decimal digit characters. -/
def natOfDigits (cs : List Char) : Nat :=
  cs.foldl (fun n c => 10 * n + (c.toNat - 48)) 0

/-- Value of an unsigned decimal literal `digits [ . digits ]`, written as
a single ratio so that it evaluates by kernel reduction: the value of
`int.frac` is `(int * 10 ^ k + frac) / 10 ^ k` where `k` is the number of
fraction digits. -/
def ratOfUnsigned (cs : List Char) : ℚ :=
  let intPart := cs.takeWhile Char.isDigit
  let rest := cs.dropWhile Char.isDigit
  match rest with
  | '.' :: frac =>
    mkRat ((natOfDigits intPart * 10 ^ frac.length + natOfDigits frac : Nat) : Int)
      (10 ^ frac.length)
  | _ => mkRat ((natOfDigits intPart : Nat) : Int) 1

/-- Value of a decimal literal with an optional leading minus sign,
modelling Python `float(...)` on the strings matched by the coordinate
regexes. -/
def ratOfDecimal (cs : List Char) : ℚ :=
  match cs with
  | '-' :: rest => - ratOfUnsigned rest
  | _ => ratOfUnsigned cs

/-- A latitude/longitude pair as produced by the parser. -/
structure Coord where
  lat : ℚ
  lng : ℚ
deriving Repr, DecidableEq

/-! ### The regex primitives of `location_parser.py`

Each Python regex used by the parser is embedded as a deterministic
matcher.  All the patterns involved are backtracking-free because every
optional or starred piece is followed by a character class disjoint from
it, so greedy maximal-munch matching coincides with Python `re` semantics.
-/

/-- Match `-?\d+\.\d+` at the head of `cs`; return the matched characters
and the remainder.  This is the number shape used by the bare-pair pattern
and the three maps-URL patterns. -/
def matchNumStrict (cs : List Char) : Option (List Char × List Char) :=
  let (sign, cs1) :=
    match cs with
    | '-' :: rest => ([('-' : Char)], rest)
    | _ => (([] : List Char), cs)
  let d1 := cs1.takeWhile Char.isDigit
  let cs2 := cs1.dropWhile Char.isDigit
  if d1.isEmpty then none
  else
    match cs2 with
    | '.' :: cs3 =>
      let d2 := cs3.takeWhile Char.isDigit
      let cs4 := cs3.dropWhile Char.isDigit
      if d2.isEmpty then none
      else some (sign ++ d1 ++ ['.'] ++ d2, cs4)
    | _ => none

/-- Result of matching `(-?\d+\.\d+),\s*(-?\d+\.\d+)` at the head of a
character list: total length of the match, the two captured groups, and
the remainder of the input. -/
structure RawPair where
  len : Nat
  latS : List Char
  lngS : List Char
  rest : List Char
deriving Repr, DecidableEq

/-- Match the bare coordinate-pair pattern `(-?\d+\.\d+),\s*(-?\d+\.\d+)`
at the head of `cs`. -/
def matchPairAt (cs : List Char) : Option RawPair :=
  match matchNumStrict cs with
  | none => none
  | some (latS, r1) =>
    match r1 with
    | ',' :: r2 =>
      let ws := r2.takeWhile isPySpace
      let r3 := r2.dropWhile isPySpace
      match matchNumStrict r3 with
      | none => none
      | some (lngS, r4) =>
        some ⟨latS.length + 1 + ws.length + lngS.length, latS, lngS, r4⟩
    | _ => none

/-- One match produced by `re.finditer` over the coordinate-pair pattern:
start offset, length, and the two captured groups. -/
structure PairMatch where
  start : Nat
  len : Nat
  latS : List Char
  lngS : List Char
deriving Repr, DecidableEq

/-- All non-overlapping matches of the coordinate-pair pattern, scanning
left to right (`re.finditer` semantics).  The first argument is fuel;
callers pass the input length. -/
def findPairsAux : Nat → Nat → List Char → List PairMatch
  | 0, _, _ => []
  | _ + 1, _, [] => []
  | fuel + 1, i, c :: rest =>
    match matchPairAt (c :: rest) with
    | some rp => ⟨i, rp.len, rp.latS, rp.lngS⟩ :: findPairsAux fuel (i + rp.len) rp.rest
    | none => findPairsAux fuel (i + 1) rest

/-- `list(re.finditer(coord_pattern, text))` from `parse_query`. -/
def findPairs (cs : List Char) : List PairMatch := findPairsAux cs.length 0 cs

/-- Consume the literal `pat` at the head of `cs`. -/
def chompLit : List Char → List Char → Option (List Char)
  | [], cs => some cs
  | _ :: _, [] => none
  | p :: ps, c :: cs => if p = c then chompLit ps cs else none

/-- Match the maps-URL pattern `https?://(?:www\.)?google\.com/maps[^\s]+`
at the head of `cs`; return the matched characters. -/
def matchUrlAt (cs : List Char) : Option (List Char) :=
  match chompLit "http".data cs with
  | none => none
  | some r0 =>
    let (sPart, r1) :=
      match r0 with
      | 's' :: rest => ([('s' : Char)], rest)
      | _ => (([] : List Char), r0)
    match chompLit "://".data r1 with
    | none => none
    | some r2 =>
      let tryTail (www : List Char) (r : List Char) : Option (List Char) :=
        match chompLit "google.com/maps".data r with
        | none => none
        | some r3 =>
          let tail := r3.takeWhile (fun c => !isPySpace c)
          if tail.isEmpty then none
          else some ("http".data ++ sPart ++ "://".data ++ www ++ "google.com/maps".data ++ tail)
      match chompLit "www.".data r2 with
      | some r2w =>
        match tryTail "www.".data r2w with
        | some m => some m
        | none => tryTail [] r2
      | none => tryTail [] r2

/-- `re.search` for the maps-URL pattern: the leftmost match, if any. -/
def findUrlIn : List Char → Option (List Char)
  | [] => none
  | c :: rest =>
    match matchUrlAt (c :: rest) with
    | some m => some m
    | none => findUrlIn rest

/-- Match `-?\d+\.\d+ , -?\d+\.\d+` (no whitespace after the comma, as in
the three URL coordinate patterns) at the head of `cs`; return the two
captured groups and the remainder. -/
def matchUrlPairAfter (cs : List Char) : Option (List Char × List Char) :=
  match matchNumStrict cs with
  | none => none
  | some (latS, r1) =>
    match r1 with
    | ',' :: r2 =>
      match matchNumStrict r2 with
      | none => none
      | some (lngS, _) => some (latS, lngS)
    | _ => none

/-- `re.search` for `@(-?\d+\.\d+),(-?\d+\.\d+)` inside a URL. -/
def scanAtPattern : List Char → Option (List Char × List Char)
  | [] => none
  | '@' :: rest =>
    match matchUrlPairAfter rest with
    | some g => some g
    | none => scanAtPattern rest
  | _ :: rest => scanAtPattern rest

/-- `re.search` for `[?&]key=(-?\d+\.\d+),(-?\d+\.\d+)` inside a URL,
where `key` is `q` or `ll`. -/
def scanParamPattern (key : List Char) : List Char → Option (List Char × List Char)
  | [] => none
  | c :: rest =>
    if c = '?' || c = '&' then
      match chompLit (key ++ ['=']) rest with
      | some r1 =>
        match matchUrlPairAfter r1 with
        | some g => some g
        | none => scanParamPattern key rest
      | none => scanParamPattern key rest
    else scanParamPattern key rest

/-- `LocationParser.extract_coordinates_from_maps_url`: try the `@lat,lng`,
`?q=lat,lng` and `?ll=lat,lng` conventions in order; no range validation
is performed on any of them. -/
def extractCoordinatesFromMapsUrl (url : List Char) : Option Coord :=
  match scanAtPattern url with
  | some (a, b) => some ⟨ratOfDecimal a, ratOfDecimal b⟩
  | none =>
    match scanParamPattern ['q'] url with
    | some (a, b) => some ⟨ratOfDecimal a, ratOfDecimal b⟩
    | none =>
      match scanParamPattern ['l', 'l'] url with
      | some (a, b) => some ⟨ratOfDecimal a, ratOfDecimal b⟩
      | none => none

/-- Match `-?\d+\.?\d*` (the looser number shape of the anchored
direct-coordinate pattern in `extract_coordinates_from_search`) at the
head of `cs`. -/
def matchNumLoose (cs : List Char) : Option (List Char × List Char) :=
  let (sign, cs1) :=
    match cs with
    | '-' :: rest => ([('-' : Char)], rest)
    | _ => (([] : List Char), cs)
  let d1 := cs1.takeWhile Char.isDigit
  let cs2 := cs1.dropWhile Char.isDigit
  if d1.isEmpty then none
  else
    match cs2 with
    | '.' :: cs3 =>
      let d2 := cs3.takeWhile Char.isDigit
      let cs4 := cs3.dropWhile Char.isDigit
      some (sign ++ d1 ++ ['.'] ++ d2, cs4)
    | _ => some (sign ++ d1, cs2)

/-- The anchored pattern `^(-?\d+\.?\d*),\s*(-?\d+\.?\d*)$` applied to a
whole character list. -/
def matchAnchoredPair (cs : List Char) : Option (List Char × List Char) :=
  match matchNumLoose cs with
  | none => none
  | some (latS, r1) =>
    match r1 with
    | ',' :: r2 =>
      let r3 := r2.dropWhile isPySpace
      match matchNumLoose r3 with
      | none => none
      | some (lngS, r4) => if r4.isEmpty then some (latS, lngS) else none
    | _ => none

/-- `LocationParser.extract_coordinates_from_search`: parse the stripped
text as a direct coordinate pair, else consult the geocoding providers.
Both geocoding providers (Google Maps, then Nominatim) are modelled by the
single best-effort function `geocode`; no range validation is performed. -/
def extractCoordinatesFromSearch (geocode : String → Option Coord) (searchText : String) :
    Option Coord :=
  match matchAnchoredPair (pyStripChars searchText.data) with
  | some (a, b) => some ⟨ratOfDecimal a, ratOfDecimal b⟩
  | none => geocode searchText

/-- A word character for the regex boundary `\b`: letters, digits, `_`. -/
def isWordChar (c : Char) : Bool := c.isAlphanum || c = '_'

/-- Whether there is a word boundary between the previous character and a
word character that starts here. -/
def boundaryBefore : Option Char → Bool
  | none => true
  | some c => !isWordChar c

/-- Whether there is a word boundary after a word ending just before `cs`. -/
def boundaryAfter : List Char → Bool
  | [] => true
  | c :: _ => !isWordChar c

/-- Try to match one separator of `re.split(r'[,;]|\bat\b|\bin\b|\bnear\b', ...)`
at the head of `cs`; on success return the remainder together with the last
character of the separator (needed for the following boundary check). -/
def sepAt (prev : Option Char) (cs : List Char) : Option (List Char × Char) :=
  match cs with
  | ',' :: rest => some (rest, ',')
  | ';' :: rest => some (rest, ';')
  | 'a' :: 't' :: rest =>
    if boundaryBefore prev && boundaryAfter rest then some (rest, 't') else none
  | 'i' :: 'n' :: rest =>
    if boundaryBefore prev && boundaryAfter rest then some (rest, 'n') else none
  | 'n' :: 'e' :: 'a' :: 'r' :: rest =>
    if boundaryBefore prev && boundaryAfter rest then some (rest, 'r') else none
  | _ => none

/-- `re.split` over the separator alternation above, accumulating the piece
currently being read (in reverse).  The first argument is fuel; callers pass
the input length. -/
def pySplitSepsAux : Nat → Option Char → List Char → List Char → List (List Char)
  | 0, _, acc, rest => [acc.reverse ++ rest]
  | _ + 1, _, acc, [] => [acc.reverse]
  | fuel + 1, prev, acc, c :: rest =>
    match sepAt prev (c :: rest) with
    | some (rest', lastC) => acc.reverse :: pySplitSepsAux fuel (some lastC) [] rest'
    | none => pySplitSepsAux fuel (some c) (c :: acc) rest

/-- `re.split(r'[,;]|\bat\b|\bin\b|\bnear\b', text)`. -/
def pySplitSeps (cs : List Char) : List (List Char) :=
  pySplitSepsAux cs.length none [] cs

/-- `LocationParser.extract_potential_addresses`: split on separators, keep
stripped pieces longer than 10 characters, and append the stripped full
text as a fallback candidate when it is not already present. -/
def extractPotentialAddresses (cs : List Char) : List (List Char) :=
  let parts := pySplitSeps cs
  let candidates := (parts.map pyStripChars).filter (fun p => 10 < p.length)
  let full := pyStripChars cs
  if candidates.contains full then candidates else candidates ++ [full]

/-- Try each address candidate in order against
`extract_coordinates_from_search`, returning the first that yields a
coordinate, together with the candidate itself. -/
def tryCandidates (geocode : String → Option Coord) :
    List (List Char) → Option (List Char × Coord)
  | [] => none
  | a :: rest =>
    match extractCoordinatesFromSearch geocode (String.mk a) with
    | some c => some (a, c)
    | none => tryCandidates geocode rest

/-- `LocationParser.parse_query`: the three-strategy extraction cascade.
The branches mirror the Python `if url_match: ... else: if coord_matches:
... else: ...` structure, so a structurally matched strategy that yields no
usable coordinate does not fall through to a later strategy. -/
def parseQuery (geocode : String → Option Coord) (q : String) : String × Option Coord :=
  let cs := q.data
  match findUrlIn cs with
  | some url =>
    (pyStrip (String.mk (removeAll cs url)), extractCoordinatesFromMapsUrl url)
  | none =>
    match (findPairs cs).getLast? with
    | some m =>
      let lat := ratOfDecimal m.latS
      let lng := ratOfDecimal m.lngS
      if |lat| ≤ 90 ∧ |lng| ≤ 180 then
        (String.mk (cs.take m.start ++ pyStripChars (cs.drop (m.start + m.len))), some ⟨lat, lng⟩)
      else (q, none)
    | none =>
      match tryCandidates geocode (extractPotentialAddresses cs) with
      | some (addr, c) => (pyStrip (String.mk (removeAll cs addr)), some c)
      | none => (q, none)

/-! ### Intent routing (`location_assistant.py`) -/

/-- `LocationAssistant._is_land_purchase_query`. -/
def isLandPurchaseQuery (q : String) : Bool :=
  pyIn "buy" (pyLower q) && pyIn "land" (pyLower q)

/-- The business-type keyword table of `_is_business_query`, in the
insertion order of the Python dict. -/
def businessTypes : List (String × List String) :=
  [ ("tea stall", ["tea stall", "tea shop", "tea business"]),
    ("coffee shop", ["coffee shop", "cafe", "coffee business"]),
    ("restaurant", ["restaurant", "dining", "eatery", "food business"]),
    ("retail store", ["retail", "store", "shop", "boutique"]),
    ("grocery store", ["grocery", "supermarket", "food market"]),
    ("bakery", ["bakery", "pastry shop", "bread shop"]) ]

/-- The general business-intent terms of `_is_business_query`. -/
def generalBusinessTerms : List String :=
  ["open", "start", "begin", "launch", "business", "shop", "store"]

/-- `LocationAssistant._is_business_query`: first business type (in table
order) with any keyword occurring in the lowered query; otherwise the
generic type "business" when a general term occurs; otherwise none. -/
def isBusinessQuery (q : String) : Option String :=
  let ql := pyLower q
  match businessTypes.find? (fun bt => bt.2.any (fun kw => pyIn kw ql)) with
  | some bt => some bt.1
  | none =>
    if generalBusinessTerms.any (fun t => pyIn t ql) then some "business" else none

/-- The three handling paths of `process_query`. -/
inductive Route where
  | land
  | business (businessType : String)
  | general
deriving Repr, DecidableEq

/-- The classification cascade of `LocationAssistant.process_query`
(land check first, then business check, then the general path). -/
def routeOf (q : String) : Route :=
  if isLandPurchaseQuery q then Route.land
  else
    match isBusinessQuery q with
    | some bt => Route.business bt
    | none => Route.general

/-! ### The bounded tool-calling loop (`_handle_general_query`) -/

/-- A structured tool invocation returned by the completion provider. -/
structure ToolCall where
  id : String
  name : String
  arguments : String
deriving Repr, DecidableEq

/-- One completion-provider round trip: either the call raises, or it
returns optional text content plus a list of tool calls. -/
inductive ProviderResponse where
  | raises (msg : String)
  | reply (content : Option String) (toolCalls : List ToolCall)
deriving Repr, DecidableEq

/-- A message on the conversation list local to one general-query turn. -/
inductive LoopMsg where
  | system (content : String)
  | user (content : String)
  | assistant (content : String) (toolCalls : List ToolCall)
  | tool (toolCallId : String) (name : String) (content : String)
deriving Repr, DecidableEq

/-- Python `a or b` on an optional string: the fallback is used when the
value is absent or empty (falsy). -/
def pyOrStr (c : Option String) (d : String) : String :=
  match c with
  | none => d
  | some s => if s = "" then d else s

/-- The message returned when the 5-round-trip budget is exhausted. -/
def maxTurnsMessage : String :=
  "I" ++ squo ++ "m sorry, I wasn" ++ squo ++
  "t able to complete your request within the allowed number of turns."

/-- The fallback answer when the provider returns neither tool calls nor
non-empty content. -/
def noResponseMessage : String :=
  "I couldn" ++ squo ++ "t generate a response."

/-- The system prompt seeded into every general-query conversation
(whitespace normalised relative to the Python triple-quoted literal). -/
def assistantSystemPrompt : String :=
  "You are a helpful location assistant that helps users find places near them and provides environmental information."

/-- The `while current_turn < max_turns` loop of `_handle_general_query`.
`provider i` is the response of the i-th completion call (the stubbed
providers of the spec are functions of the call index); `toolExec` is the
formatted string result of executing one tool call (the composition of
`_handle_tool_call` and `ResultFormatter.format_tool_result`, whose
internal failures are caught before reaching this loop shape).  The first
argument is the remaining turn budget. -/
def runToolLoop (provider : Nat → ProviderResponse) (toolExec : ToolCall → String) :
    Nat → Nat → List LoopMsg → String
  | 0, _, _ => maxTurnsMessage
  | fuel + 1, idx, msgs =>
    match provider idx with
    | ProviderResponse.raises e => "Error processing your request: " ++ e
    | ProviderResponse.reply content tcs =>
      let msgs1 := msgs ++ [LoopMsg.assistant (pyOrStr content "") tcs]
      if tcs.isEmpty then
        pyOrStr content noResponseMessage
      else
        let toolMsgs := tcs.map (fun tc => LoopMsg.tool tc.id tc.name (toolExec tc))
        runToolLoop provider toolExec fuel (idx + 1) (msgs1 ++ toolMsgs)

/-- `LocationAssistant._handle_general_query`: seed the conversation and
run at most 5 provider round trips. -/
def handleGeneralQuery (provider : Nat → ProviderResponse) (toolExec : ToolCall → String)
    (q : String) (lat lng : ℚ) : String :=
  let fullQuery := q ++ " My location is " ++ toString lat ++ ", " ++ toString lng
  runToolLoop provider toolExec 5 0 [LoopMsg.system assistantSystemPrompt, LoopMsg.user fullQuery]

/-! ### The assistant entry point (`LocationAssistant.process_query`) -/

/-- The external collaborators of one assistant instance.  The two
analyzers are total string-producing functions because their Python
counterparts catch every internal exception and return an error string. -/
structure AssistEnv where
  geocode : String → Option Coord
  provider : Nat → ProviderResponse
  toolExec : ToolCall → String
  landAnalyze : ℚ → ℚ → String → String
  bizAnalyze : ℚ → ℚ → String → String → String

/-- `LocationAssistant._parse_query`: run the parser, but return the
original query text when no coordinates were extracted. -/
def assistantParseQuery (geocode : String → Option Coord) (q : String) :
    String × Option Coord :=
  let (clean, co) := parseQuery geocode q
  match co with
  | some c => (clean, some c)
  | none => (q, none)

/-- `LocationAssistant.process_query`: parse, fill in missing coordinates
from the query, short-circuit to "no valid address" without a location,
then dispatch on the classified route. -/
def assistantProcessQuery (env : AssistEnv) (q : String) (lat0 lng0 : Option ℚ) : String :=
  let pe := assistantParseQuery env.geocode q
  let parsed := pe.1
  let extracted := pe.2
  let latlng :=
    if (lat0.isNone || lng0.isNone) && extracted.isSome then
      (extracted.map Coord.lat, extracted.map Coord.lng)
    else (lat0, lng0)
  match latlng.1, latlng.2 with
  | some lat, some lng =>
    if isLandPurchaseQuery parsed then env.landAnalyze lat lng parsed
    else
      match isBusinessQuery parsed with
      | some bt => env.bizAnalyze lat lng parsed bt
      | none => handleGeneralQuery env.provider env.toolExec parsed lat lng
  | _, _ => "no valid address"

/-! ### The per-turn HTTP handler (`app.py process_query`) -/

/-- One chat-history entry persisted in the session store. -/
structure ChatMsg where
  role : String
  content : String
deriving Repr, DecidableEq

/-- The per-session state held in Redis (the fields the handler reads and
writes; `created_at` is omitted as no logic depends on it). -/
structure SessionData where
  chatHistory : List ChatMsg
  lastLocation : Option Coord
deriving Repr, DecidableEq

/-- The JSON body and HTTP status produced by the endpoint. -/
structure ApiResponse where
  httpStatus : Nat
  status : String
  result : Option String
  message : Option String
  sessionId : Option String
deriving Repr, DecidableEq

/-- The back-reference phrases checked against the (lowered) raw query. -/
def locationReferencingPhrases : List String :=
  ["there", "that location", "that place", "the same place", "same location"]

/-- Whether the raw query text references the previous location. -/
def referencesPrevLocation (userQuery : String) : Bool :=
  locationReferencingPhrases.any (fun p => pyIn p (pyLower userQuery))

/-- The location decision of the handler (`app.py` lines 142-158): freshly
extracted coordinates win; otherwise the stored location is reused when the
raw query contains a back-reference phrase; otherwise none. -/
def turnLocation (userQuery : String) (extracted lastLoc : Option Coord) : Option Coord :=
  match extracted with
  | some c => some c
  | none =>
    if referencesPrevLocation userQuery && lastLoc.isSome then lastLoc else none

/-- The warning text returned when the assistant reports no valid address. -/
def noAddressResult : String :=
  "The address was not found. Kindly include the address in your query to proceed."

/-- `app.py process_query` for one session: takes the abstract assistant
call (an `Except` so that an exception escaping the call is representable,
matching the `try/except` in the handler), the geocoder used by the
handler via `assistant._parse_query`, the emergency id generated when the
client supplies no usable session id, the request fields, and the stored
session; returns the response and the new store contents. -/
def appProcessQuery
    (assistantCall : String → Option ℚ → Option ℚ → Except String String)
    (geocode : String → Option Coord) (emergencyId : String)
    (query : Option String) (sessionId0 : Option String)
    (store : Option SessionData) : ApiResponse × Option SessionData :=
  match query with
  | none =>
    (⟨400, "error", none, some "No query provided", none⟩, store)
  | some q =>
    let rawSid :=
      match sessionId0 with
      | none => emergencyId
      | some s => if s = "" then emergencyId else s
    let sid := pyStrip rawSid
    let s1 : SessionData :=
      match store with
      | none => ⟨[], none⟩
      | some s => s
    let pe := assistantParseQuery geocode q
    let extracted := pe.2
    let loc := turnLocation q extracted s1.lastLocation
    let callRes :=
      match loc with
      | some c => assistantCall q (some c.lat) (some c.lng)
      | none => assistantCall q none none
    match callRes with
    | Except.error e =>
      (⟨500, "error", none, some ("Error processing query: " ++ e), some sid⟩, some s1)
    | Except.ok result =>
      if pyIn "no valid address" (pyLower result) then
        (⟨200, "warning", some noAddressResult,
          some "No location information found in query", some sid⟩, some s1)
      else
        let s2 : SessionData :=
          { s1 with chatHistory := s1.chatHistory ++ [⟨"user", q⟩, ⟨"assistant", result⟩] }
        let s3 : SessionData :=
          match extracted with
          | some c => { s2 with lastLocation := some c }
          | none => s2
        (⟨200, "success", some result, none, some sid⟩, some s3)

/-- The assistant call actually wired into the endpoint: it never raises
(every internal failure is caught and converted to a result string). -/
def mkAssistantCall (env : AssistEnv) : String → Option ℚ → Option ℚ → Except String String :=
  fun q la lo => Except.ok (assistantProcessQuery env q la lo)

/-! ### Place search (`places_service.py`) -/

/-- A point of interest built from one API result. -/
structure Poi where
  name : String
  address : String
  rating : Option ℚ
deriving Repr, DecidableEq

/-- `LocationResults`: a successful search outcome. -/
structure LocationResults where
  places : List Poi
  totalFound : Nat
  searchTerm : String
deriving Repr, DecidableEq

/-- `LocationError`: the error value returned by the services. -/
structure LocationError where
  errorMessage : String
  location : Option Coord
deriving Repr, DecidableEq

/-- The union type returned by `find_places`. -/
inductive PlacesOutcome where
  | results (r : LocationResults)
  | failure (e : LocationError)
deriving Repr, DecidableEq

/-- The outcome of one HTTP request to the places API: the processed
list of results on success (`_make_places_request` followed by
`_process_places_response`), or the `ValueError` raised by
`_make_places_request` on any transport, authentication or HTTP failure. -/
inductive ApiCallOutcome where
  | raises (msg : String)
  | response (places : List Poi)
deriving Repr, DecidableEq

/-- The places HTTP layer as seen by `find_places`: latitude, longitude,
radius, resolved place type, optional keyword. -/
def PlacesRequest : Type :=
  ℚ → ℚ → Nat → String → Option String → ApiCallOutcome

/-- `ServiceConfig.default_radius`. -/
def defaultRadius : Nat := 1500

/-- The amenity-category-to-Google-place-type table of `PlacesService`. -/
def amenityTypes : List (String × String) :=
  [ ("police", "police"), ("schools", "school"), ("hospitals", "hospital"),
    ("transportation", "transit_station"), ("shopping", "shopping_mall"),
    ("parks", "park"), ("restaurants", "restaurant"), ("banks", "bank"),
    ("hotels", "lodging"), ("gas_stations", "gas_station"), ("atms", "atm"),
    ("government", "local_government_office"), ("grocery", "grocery_or_supermarket"),
    ("cafes", "cafe"), ("pharmacies", "pharmacy"), ("water_bodies", "natural_feature") ]

/-- The Google place type used for a requested category. -/
def googleTypeOf (placeType : String) : String :=
  match amenityTypes.find? (fun p => p.1 == placeType) with
  | some p => p.2
  | none => placeType

/-- Python `radius or config.default_radius` (both `None` and `0` are
falsy and select the default). -/
def resolveRadius (radius : Option Nat) : Nat :=
  match radius with
  | none => defaultRadius
  | some 0 => defaultRadius
  | some n => n

/-- `PlacesService.find_places`: resolve the radius and place type, issue
the request, and post-process.  An empty result list becomes a
`LocationError`, and any exception raised below (in particular the
`ValueError` from `_make_places_request`) is caught and also becomes a
`LocationError`; the function itself never raises. -/
def findPlaces (request : PlacesRequest) (lat lng : ℚ) (placeType : String)
    (radius : Option Nat) (keyword : Option String) : PlacesOutcome :=
  let r := resolveRadius radius
  let gt := googleTypeOf placeType
  match request lat lng r gt keyword with
  | ApiCallOutcome.raises e =>
    PlacesOutcome.failure ⟨"Error finding " ++ placeType ++ ": " ++ e, some ⟨lat, lng⟩⟩
  | ApiCallOutcome.response ps =>
    if ps.length = 0 then
      PlacesOutcome.failure
        ⟨"No " ++ placeType ++ " found near the provided location (lat: " ++
          toString lat ++ ", lng: " ++ toString lng ++ ")", some ⟨lat, lng⟩⟩
    else
      PlacesOutcome.results ⟨ps, ps.length, placeType⟩

/-! ### Category aggregation (`land_analyzer.py`, `local_business_analyzer.py`) -/

/-- A value stored in the `category_results` dict: either a
`LocationResults`, or (under the key "environmental_message") the
formatted environmental text. -/
inductive CatEntry where
  | res (r : LocationResults)
  | text (message : String)
deriving Repr, DecidableEq

/-- `MultiLocationResults` with the dict modelled as an insertion-ordered
association list (all keys written are distinct). -/
structure MultiLocationResults where
  categoryResults : List (String × CatEntry)
  location : Coord
deriving Repr, DecidableEq

/-- The outcome of `EnvironmentService.get_environmental_data` (which
catches its own failures): environmental data with its message payload, or
a `LocationError`-style failure. -/
inductive EnvOutcome where
  | envData (message : String)
  | envFailure (msg : String)
deriving Repr, DecidableEq

/-- The category list of `LandAnalyzer`. -/
def landCategories : List String :=
  ["police", "schools", "hospitals", "transportation", "shopping", "parks",
   "restaurants", "banks", "government", "water_bodies"]

/-- The category list of `LocalBusinessAnalyzer`. -/
def bizCategories : List String :=
  ["schools", "hospitals", "transportation", "shopping", "parks",
   "government", "cafes", "restaurants"]

/-- The per-category step shared by both analyzers: a `LocationResults`
passes through, anything else becomes an empty zero-count result for that
category. -/
def collectCategory (request : PlacesRequest) (lat lng : ℚ) (radius : Option Nat)
    (cat : String) : LocationResults :=
  match findPlaces request lat lng cat radius none with
  | PlacesOutcome.results r => r
  | PlacesOutcome.failure _ => ⟨[], 0, cat⟩

/-- The environmental tail step shared by both analyzers: when
environmental data is available, add the marker entry and the formatted
message entry. -/
def envEntries (env : EnvOutcome) (formatEnv : String → String) : List (String × CatEntry) :=
  match env with
  | EnvOutcome.envData m =>
    [("environmental", CatEntry.res ⟨[], 1, "environmental"⟩),
     ("environmental_message", CatEntry.text (formatEnv m))]
  | EnvOutcome.envFailure _ => []

/-- `LandAnalyzer._collect_location_data`: one search per category (errors
degrade to zero-count entries inside `collectCategory`), then the
environmental tail.  Every callee catches its own exceptions, so the
enclosing Python `try/except` never fires and the report is always built. -/
def landCollectLocationData (request : PlacesRequest) (env : EnvOutcome)
    (formatEnv : String → String) (lat lng : ℚ) (radius : Option Nat) : MultiLocationResults :=
  let catResults :=
    landCategories.map (fun cat => (cat, CatEntry.res (collectCategory request lat lng radius cat)))
  ⟨catResults ++ envEntries env formatEnv, ⟨lat, lng⟩⟩

/-- The competitor search target of `LocalBusinessAnalyzer`: place type and
keyword derived from the declared business type. -/
def competitorSearch (businessType : String) : String × Option String :=
  if businessType = "tea stall" then ("cafe", some "tea")
  else if businessType = "restaurant" then ("restaurant", none)
  else if businessType = "coffee shop" then ("cafe", some "coffee")
  else ("store", some businessType)

/-- `LocalBusinessAnalyzer._collect_location_data`: the per-category
searches, then the competitor search under the key "competition", then the
environmental tail. -/
def bizCollectLocationData (request : PlacesRequest) (env : EnvOutcome)
    (formatEnv : String → String) (lat lng : ℚ) (radius : Option Nat)
    (businessType : String) : MultiLocationResults :=
  let catResults :=
    bizCategories.map (fun cat => (cat, CatEntry.res (collectCategory request lat lng radius cat)))
  let comp := competitorSearch businessType
  let compEntry :=
    match findPlaces request lat lng comp.1 radius comp.2 with
    | PlacesOutcome.results r => r
    | PlacesOutcome.failure _ => ⟨[], 0, "competition"⟩
  ⟨catResults ++ [("competition", CatEntry.res compEntry)] ++ envEntries env formatEnv,
   ⟨lat, lng⟩⟩

/-! ### Concrete collaborator stubs used in instantiations -/

/-- A geocoder that resolves nothing. -/
def gNone : String → Option Coord := fun _ => none

/-- A geocoder that resolves every string to a fixed coordinate. -/
def gAll : String → Option Coord := fun _ => some ⟨7, 8⟩

/-- A tool executor returning a fixed formatted result. -/
def teStub : ToolCall → String := fun _ => "tool result"

/-- A fixed tool call. -/
def tcStub : ToolCall := ⟨"call_1", "find_places", ""⟩

/-- A provider that returns a tool invocation (never plain text) on every
round trip. -/
def pAllTools : Nat → ProviderResponse :=
  fun _ => ProviderResponse.reply none [tcStub]

/-- A provider agreeing with `pAllTools` on the first five calls only. -/
def pAllToolsCut : Nat → ProviderResponse :=
  fun i => if i < 5 then ProviderResponse.reply none [tcStub] else ProviderResponse.raises "cut"

/-- An assistant environment whose completion provider raises on every call. -/
def envRaise : AssistEnv :=
  ⟨gNone, fun _ => ProviderResponse.raises "boom", teStub,
   fun _ _ _ => "land analysis", fun _ _ _ _ => "biz analysis"⟩

/-- An assistant environment whose completion provider reports being down. -/
def envDown : AssistEnv :=
  ⟨gNone, fun _ => ProviderResponse.raises "provider down", teStub,
   fun _ _ _ => "land analysis", fun _ _ _ _ => "biz analysis"⟩

/-- An assistant call that raises on every input. -/
def acErr : String → Option ℚ → Option ℚ → Except String String :=
  fun _ _ _ => Except.error "kaput"

/-- An assistant call that always reports an unresolved address. -/
def acNoAddr : String → Option ℚ → Option ℚ → Except String String :=
  fun _ _ _ => Except.ok "no valid address"

/-- An assistant call that records whether it received the stored location
`{1, 2}`. -/
def probeAssistant : String → Option ℚ → Option ℚ → Except String String :=
  fun _ la lo =>
    if la = some 1 ∧ lo = some 2 then Except.ok "used stored location"
    else Except.ok "used other location"

/-- A fixed point of interest. -/
def poiA : Poi := ⟨"Alpha", "1 Main St", none⟩

/-- A places layer that raises for the school type and finds one place for
every other type. -/
def reqWit : PlacesRequest := fun _ _ _ t _ =>
  if t = "school" then ApiCallOutcome.raises "boom" else ApiCallOutcome.response [poiA]

/-- A places layer with no matches for any search. -/
def reqEmpty : PlacesRequest := fun _ _ _ _ _ => ApiCallOutcome.response []

/-! ### Helper lemmas -/

/-- A non-empty list has a last element. -/
theorem getLast?_of_ne_nil {α : Type} (l : List α) (h : l ≠ []) :
    ∃ a, l.getLast? = some a := by
  have hs : l.getLast?.isSome := by rw [List.getLast?_isSome]; exact h
  exact Option.isSome_iff_exists.mp hs

/-- Looking up a key of a key-indexed map built over a list of keys. -/
theorem lookup_map_self {β : Type} (g : String → β) :
    ∀ (l : List String) (cat : String), cat ∈ l →
      (l.map (fun c => (c, g c))).lookup cat = some (g cat) := by
  intro l
  induction l with
  | nil => intro cat h; cases h
  | cons a as ih =>
    intro cat h
    by_cases hac : a = cat
    · subst hac
      simp [List.lookup]
    · have hmem : cat ∈ as := by
        cases h with
        | head => exact absurd rfl hac
        | tail _ hm => exact hm
      have hbeq : (cat == a) = false := beq_false_of_ne (Ne.symm hac)
      simp [List.lookup, hbeq, ih cat hmem]

/-- A successful lookup in the left part of an appended association list. -/
theorem lookup_append_some {β : Type} (l₁ l₂ : List (String × β)) (k : String) (v : β)
    (h : l₁.lookup k = some v) : (l₁ ++ l₂).lookup k = some v := by
  induction l₁ with
  | nil => simp [List.lookup] at h
  | cons e es ih =>
    rw [List.cons_append]
    by_cases hk : k == e.1
    · simp [List.lookup, hk] at h ⊢
      exact h
    · rw [Bool.not_eq_true] at hk
      simp [List.lookup, hk] at h ⊢
      exact ih h

/-! ### C8: intent classification -/

/-- C8: intent classification is a pure first-match-wins cascade: a query
routes to land exactly when its lowered text contains both "buy" and
"land"; it routes to a business type exactly when the land rule fails and
the business check produces that type; it routes to general exactly when
both fail; and the three sample queries classify as land, business "tea
stall", and general. -/
theorem claim8_intent_routing :
    (∀ q : String, routeOf q = Route.land ↔
        (pyIn "buy" (pyLower q) = true ∧ pyIn "land" (pyLower q) = true)) ∧
    (∀ (q : String) (bt : String), routeOf q = Route.business bt ↔
        (isLandPurchaseQuery q = false ∧ isBusinessQuery q = some bt)) ∧
    (∀ q : String, routeOf q = Route.general ↔
        (isLandPurchaseQuery q = false ∧ isBusinessQuery q = none)) ∧
    routeOf "Can I buy land near the river?" = Route.land ∧
    routeOf "Can I open a tea stall here?" = Route.business "tea stall" ∧
    routeOf ("What" ++ squo ++ "s the weather?") = Route.general := by
  refine ⟨?_, ?_, ?_, by decide, by decide, by decide⟩
  · intro q
    cases hL : isLandPurchaseQuery q with
    | true =>
      have h2 := hL
      rw [isLandPurchaseQuery, Bool.and_eq_true] at h2
      simp [routeOf, hL, h2]
    | false =>
      have h2 : ¬(pyIn "buy" (pyLower q) = true ∧ pyIn "land" (pyLower q) = true) := by
        rw [← Bool.and_eq_true, ← isLandPurchaseQuery, hL]
        simp
      simp only [routeOf, hL, Bool.false_eq_true, if_false]
      cases hB : isBusinessQuery q <;> simp [h2]
  · intro q bt
    cases hL : isLandPurchaseQuery q with
    | true => simp [routeOf, hL]
    | false =>
      simp only [routeOf, hL, Bool.false_eq_true, if_false]
      cases hB : isBusinessQuery q with
      | none => simp
      | some bt' => simp [Route.business.injEq, eq_comm]
  · intro q
    cases hL : isLandPurchaseQuery q with
    | true => simp [routeOf, hL]
    | false =>
      simp only [routeOf, hL, Bool.false_eq_true, if_false]
      cases hB : isBusinessQuery q <;> simp

/-- C8 witness: the land clause applied at a concrete query. -/
theorem claim8_witness :
    routeOf "please buy land" = Route.land ∧
    routeOf "hello" = Route.general :=
  ⟨(claim8_intent_routing.1 "please buy land").mpr (by decide),
   (claim8_intent_routing.2.2.1 "hello").mpr (by decide)⟩

/-! ### C4: the tool loop is bounded by five round trips -/

/-- The loop result depends only on the provider responses inside the
remaining budget window. -/
theorem runToolLoop_congr (te : ToolCall → String) (p₁ p₂ : Nat → ProviderResponse) :
    ∀ (fuel idx : Nat) (msgs : List LoopMsg),
      (∀ i, idx ≤ i → i < idx + fuel → p₁ i = p₂ i) →
      runToolLoop p₁ te fuel idx msgs = runToolLoop p₂ te fuel idx msgs := by
  intro fuel
  induction fuel with
  | zero => intro idx msgs _; rfl
  | succ n ih =>
    intro idx msgs h
    have h0 : p₁ idx = p₂ idx := h idx le_rfl (by omega)
    rw [runToolLoop, runToolLoop, h0]
    cases hp : p₂ idx with
    | raises e => rfl
    | reply content tcs =>
      by_cases he : tcs.isEmpty
      · simp [he]
      · simp only [he, if_false, Bool.false_eq_true]
        exact ih (idx + 1) _ (fun i h1 h2 => h i (by omega) (by omega))

/-- A provider that emits tool calls on every round trip exhausts any
budget. -/
theorem runToolLoop_allTools (p : Nat → ProviderResponse) (te : ToolCall → String)
    (h : ∀ i, ∃ c tcs, tcs ≠ [] ∧ p i = ProviderResponse.reply c tcs) :
    ∀ (fuel idx : Nat) (msgs : List LoopMsg),
      runToolLoop p te fuel idx msgs = maxTurnsMessage := by
  intro fuel
  induction fuel with
  | zero => intro idx msgs; rfl
  | succ n ih =>
    intro idx msgs
    obtain ⟨c, tcs, hne, hp⟩ := h idx
    have he : tcs.isEmpty = false := by
      cases tcs with
      | nil => exact absurd rfl hne
      | cons a as => rfl
    rw [runToolLoop, hp]
    simp only [he, if_false, Bool.false_eq_true]
    exact ih (idx + 1) _

/-- C4: a general-query turn performs at most 5 provider round trips (its
outcome is independent of every response beyond the fifth, and the loop is
a total function, so it always terminates); and when the provider returns
a tool invocation on every round trip, the turn ends in the max-turns
apology string rather than an exception. -/
theorem claim4_tool_loop_bounded :
    (∀ (p₁ p₂ : Nat → ProviderResponse) (te : ToolCall → String) (q : String) (lat lng : ℚ),
       (∀ i, i < 5 → p₁ i = p₂ i) →
       handleGeneralQuery p₁ te q lat lng = handleGeneralQuery p₂ te q lat lng) ∧
    (∀ (p : Nat → ProviderResponse) (te : ToolCall → String) (q : String) (lat lng : ℚ),
       (∀ i, ∃ c tcs, tcs ≠ [] ∧ p i = ProviderResponse.reply c tcs) →
       handleGeneralQuery p te q lat lng = maxTurnsMessage) := by
  constructor
  · intro p₁ p₂ te q lat lng h
    exact runToolLoop_congr te p₁ p₂ 5 0 _ (fun i h1 h2 => h i (by omega))
  · intro p te q lat lng h
    exact runToolLoop_allTools p te h 5 0 _

/-- C4 witness: with the always-tool-calling stub the loop returns the
apology string, and the outcome agrees with a provider that differs from
the stub only after the fifth call. -/
theorem claim4_witness :
    handleGeneralQuery pAllTools teStub "hi" 1 2 = maxTurnsMessage ∧
    handleGeneralQuery pAllTools teStub "hi" 1 2 = handleGeneralQuery pAllToolsCut teStub "hi" 1 2 :=
  ⟨claim4_tool_loop_bounded.2 pAllTools teStub "hi" 1 2
      (fun _ => ⟨none, [tcStub], by decide, rfl⟩),
   claim4_tool_loop_bounded.1 pAllTools pAllToolsCut teStub "hi" 1 2
      (fun i hi => by simp [pAllTools, pAllToolsCut, hi])⟩

/-! ### C2: aggregation tolerates per-category failures -/

/-- C2: for every places layer, environmental outcome, coordinate, radius
and business type, both aggregations always produce a complete report in
which every category of the fixed list is present (never omitted); a
category whose search raises or returns no places contributes a
zero-count entry, and a category with results contributes exactly those
results with their correct non-zero count. -/
theorem claim2_partial_failure_tolerance :
    ∀ (request : PlacesRequest) (env : EnvOutcome) (fmt : String → String)
      (lat lng : ℚ) (radius : Option Nat) (businessType : String) (cat : String),
      (cat ∈ landCategories →
        (landCollectLocationData request env fmt lat lng radius).categoryResults.lookup cat
          = some (CatEntry.res (collectCategory request lat lng radius cat))) ∧
      (cat ∈ bizCategories →
        (bizCollectLocationData request env fmt lat lng radius businessType).categoryResults.lookup cat
          = some (CatEntry.res (collectCategory request lat lng radius cat))) ∧
      (∀ e, request lat lng (resolveRadius radius) (googleTypeOf cat) none = ApiCallOutcome.raises e →
        collectCategory request lat lng radius cat = ⟨[], 0, cat⟩) ∧
      (request lat lng (resolveRadius radius) (googleTypeOf cat) none = ApiCallOutcome.response [] →
        collectCategory request lat lng radius cat = ⟨[], 0, cat⟩) ∧
      (∀ ps : List Poi, ps ≠ [] →
        request lat lng (resolveRadius radius) (googleTypeOf cat) none = ApiCallOutcome.response ps →
        collectCategory request lat lng radius cat = ⟨ps, ps.length, cat⟩) := by
  intro request env fmt lat lng radius businessType cat
  refine ⟨?_, ?_, ?_, ?_, ?_⟩
  · intro hmem
    rw [landCollectLocationData]
    exact lookup_append_some _ _ _ _
      (lookup_map_self (fun c => CatEntry.res (collectCategory request lat lng radius c))
        landCategories cat hmem)
  · intro hmem
    rw [bizCollectLocationData]
    exact lookup_append_some _ _ _ _
      (lookup_append_some _ _ _ _
        (lookup_map_self (fun c => CatEntry.res (collectCategory request lat lng radius c))
          bizCategories cat hmem))
  · intro e he
    rw [collectCategory, findPlaces, he]
  · intro he
    rw [collectCategory, findPlaces, he]
    simp
  · intro ps hne he
    rw [collectCategory, findPlaces, he]
    have : ¬(ps.length = 0) := fun h => hne (List.length_eq_zero.mp h)
    simp [this]

/-- C2 witness: with a layer that raises for the school search and finds
one place for every other search, the land report still carries every
category: schools with a zero count, parks with its one correct result. -/
theorem claim2_witness :
    (landCollectLocationData reqWit (EnvOutcome.envFailure "no env") id 1 2 none).categoryResults.lookup "schools"
      = some (CatEntry.res ⟨[], 0, "schools"⟩) ∧
    (landCollectLocationData reqWit (EnvOutcome.envFailure "no env") id 1 2 none).categoryResults.lookup "parks"
      = some (CatEntry.res ⟨[poiA], 1, "parks"⟩) := by
  constructor
  · have h1 := (claim2_partial_failure_tolerance reqWit (EnvOutcome.envFailure "no env") id
      1 2 none "b" "schools").1 (by decide)
    have h2 := (claim2_partial_failure_tolerance reqWit (EnvOutcome.envFailure "no env") id
      1 2 none "b" "schools").2.2.1 "boom" (by decide)
    rw [h2] at h1
    exact h1
  · have h1 := (claim2_partial_failure_tolerance reqWit (EnvOutcome.envFailure "no env") id
      1 2 none "b" "parks").1 (by decide)
    have h2 := (claim2_partial_failure_tolerance reqWit (EnvOutcome.envFailure "no env") id
      1 2 none "b" "parks").2.2.2.2 [poiA] (by decide) (by decide)
    rw [h2] at h1
    exact h1

/-! ### C10: outcomes of the place search -/

/-- C10 (amended): `find_places` never raises; the request helper raising
on a transport or authentication failure is caught and converted into a
`LocationError` value, and a search with no matching places also yields a
`LocationError` value (not an empty success); only a non-empty search
yields a `LocationResults`.  The two failure kinds are therefore
distinguished from success by the returned variant but from each other
only by their message text. -/
theorem claim10_find_places_outcomes :
    ∀ (request : PlacesRequest) (lat lng : ℚ) (pt : String) (radius : Option Nat)
      (kw : Option String),
      (∀ e, request lat lng (resolveRadius radius) (googleTypeOf pt) kw = ApiCallOutcome.raises e →
        findPlaces request lat lng pt radius kw =
          PlacesOutcome.failure ⟨"Error finding " ++ pt ++ ": " ++ e, some ⟨lat, lng⟩⟩) ∧
      (request lat lng (resolveRadius radius) (googleTypeOf pt) kw = ApiCallOutcome.response [] →
        findPlaces request lat lng pt radius kw =
          PlacesOutcome.failure
            ⟨"No " ++ pt ++ " found near the provided location (lat: " ++
              toString lat ++ ", lng: " ++ toString lng ++ ")", some ⟨lat, lng⟩⟩) ∧
      (∀ ps : List Poi, ps ≠ [] →
        request lat lng (resolveRadius radius) (googleTypeOf pt) kw = ApiCallOutcome.response ps →
        findPlaces request lat lng pt radius kw = PlacesOutcome.results ⟨ps, ps.length, pt⟩) := by
  intro request lat lng pt radius kw
  refine ⟨?_, ?_, ?_⟩
  · intro e he
    rw [findPlaces, he]
  · intro he
    rw [findPlaces, he]
    simp
  · intro ps hne he
    rw [findPlaces, he]
    have : ¬(ps.length = 0) := fun h => hne (List.length_eq_zero.mp h)
    simp [this]

/-- C10 witness: the three outcome shapes at concrete inputs. -/
theorem claim10_witness :
    findPlaces reqWit 1 2 "schools" none none =
      PlacesOutcome.failure ⟨"Error finding " ++ "schools" ++ ": " ++ "boom", some ⟨1, 2⟩⟩ ∧
    findPlaces reqEmpty 1 2 "parks" none none =
      PlacesOutcome.failure
        ⟨"No " ++ "parks" ++ " found near the provided location (lat: " ++
          toString (1 : ℚ) ++ ", lng: " ++ toString (2 : ℚ) ++ ")", some ⟨1, 2⟩⟩ ∧
    findPlaces reqWit 1 2 "parks" none none = PlacesOutcome.results ⟨[poiA], 1, "parks"⟩ :=
  ⟨(claim10_find_places_outcomes reqWit 1 2 "schools" none none).1 "boom" (by decide),
   (claim10_find_places_outcomes reqEmpty 1 2 "parks" none none).2.1 (by decide),
   (claim10_find_places_outcomes reqWit 1 2 "parks" none none).2.2 [poiA] (by decide) (by decide)⟩

/-- C10 counterexample: a search with no matching places does not return an
empty successful sequence as the claim states; `find_places` converts it
into a `LocationError` value ("No parks found near ..."), indistinguishable
in kind from a transport failure. -/
theorem claim10_counterexample :
    findPlaces reqEmpty 1 2 "parks" none none =
      PlacesOutcome.failure
        ⟨"No parks found near the provided location (lat: 1, lng: 2)", some ⟨1, 2⟩⟩ := by
  decide

/-! ### C3: the cascade does not fall through between strategies -/

/-- C3 (amended): the three strategies are mutually exclusive structural
branches selected by pattern presence, not by extraction success.  When a
maps-URL match is present, the result is whatever URL extraction yields
(possibly nothing) and no other strategy is consulted; when no URL matches
but the bare-pair pattern matches somewhere, only the last pair is
considered and an out-of-range pair is discarded (not raised) yielding no
coordinate at all; in both cases the geocoder is never consulted, so there
is no fall-through to address-based extraction. -/
theorem claim3_no_fallthrough :
    (∀ (g₁ g₂ : String → Option Coord) (q : String),
       (findUrlIn q.data ≠ none ∨ findPairs q.data ≠ []) →
       parseQuery g₁ q = parseQuery g₂ q) ∧
    (∀ (g : String → Option Coord) (q : String) (url : List Char),
       findUrlIn q.data = some url →
       parseQuery g q =
         (pyStrip (String.mk (removeAll q.data url)), extractCoordinatesFromMapsUrl url)) ∧
    (∀ (g : String → Option Coord) (q : String) (ms : List PairMatch) (m : PairMatch),
       findUrlIn q.data = none →
       findPairs q.data = ms ++ [m] →
       ¬(|ratOfDecimal m.latS| ≤ 90 ∧ |ratOfDecimal m.lngS| ≤ 180) →
       parseQuery g q = (q, none)) := by
  refine ⟨?_, ?_, ?_⟩
  · intro g₁ g₂ q h
    cases hu : findUrlIn q.data with
    | some url => rw [parseQuery, parseQuery, hu]
    | none =>
      have hp : findPairs q.data ≠ [] := by
        cases h with
        | inl h1 => exact absurd hu h1
        | inr h2 => exact h2
      obtain ⟨m, hm⟩ := getLast?_of_ne_nil _ hp
      rw [parseQuery, parseQuery, hu]
      simp only [hm]
  · intro g q url hu
    rw [parseQuery, hu]
  · intro g q ms m hu hp hrange
    rw [parseQuery, hu]
    simp only [hp, List.getLast?_concat]
    rw [if_neg hrange]

/-- C3 witness: the three clauses applied at concrete inputs: a text with
a bare pair parses identically under two different geocoders; a text whose
maps URL carries no coordinate convention yields the URL-stripped text and
no coordinate; a text whose last bare pair is out of range yields the
original text and no coordinate even under a geocoder that resolves
everything. -/
theorem claim3_witness :
    parseQuery gNone "find 95.5, 10.5 here" = parseQuery gAll "find 95.5, 10.5 here" ∧
    parseQuery gAll "https://www.google.com/maps/place/unknown" =
      (pyStrip (String.mk (removeAll ("https://www.google.com/maps/place/unknown".data)
          ("https://www.google.com/maps/place/unknown".data))),
        extractCoordinatesFromMapsUrl ("https://www.google.com/maps/place/unknown".data)) ∧
    parseQuery gAll "95.5, 200.5 at Baker Street London" =
      ("95.5, 200.5 at Baker Street London", none) :=
  ⟨claim3_no_fallthrough.1 gNone gAll "find 95.5, 10.5 here" (Or.inr (by decide)),
   claim3_no_fallthrough.2.1 gAll "https://www.google.com/maps/place/unknown"
     ("https://www.google.com/maps/place/unknown".data) (by decide),
   claim3_no_fallthrough.2.2 gAll "95.5, 200.5 at Baker Street London"
     [] ⟨0, 11, "95.5".data, "200.5".data⟩ (by decide) (by decide) (by decide)⟩

/-- C3 counterexample: the claim says a maps URL containing none of the
three coordinate conventions makes the cascade continue to the next
strategy; here such a URL is followed by a perfectly valid in-range bare
pair (one bare-pair match exists in the text), yet the extractor returns
no coordinate at all, because the URL branch never falls through. -/
theorem claim3_counterexample :
    (parseQuery gAll "https://www.google.com/maps/place 12.5, 45.5").2 = none ∧
    (findPairs ("https://www.google.com/maps/place 12.5, 45.5".data)).length = 1 := by
  decide

/-! ### C6: range validation of produced coordinates -/

/-- C6 (amended): only the bare-pair strategy validates ranges: when no
maps URL matches and the bare-pair pattern matches somewhere in the text,
any coordinate the extractor returns satisfies latitude in [-90, 90] and
longitude in [-180, 180], and an out-of-range pair is discarded rather
than clamped.  Coordinates extracted from a maps URL (or produced by the
address branch) are returned without any range validation. -/
theorem claim6_pair_range_validation :
    ∀ (g : String → Option Coord) (q : String) (c : Coord),
      findUrlIn q.data = none →
      findPairs q.data ≠ [] →
      (parseQuery g q).2 = some c →
      |c.lat| ≤ 90 ∧ |c.lng| ≤ 180 := by
  intro g q c hu hp hc
  obtain ⟨m, hm⟩ := getLast?_of_ne_nil _ hp
  rw [parseQuery, hu] at hc
  simp only [hm] at hc
  by_cases hr : |ratOfDecimal m.latS| ≤ 90 ∧ |ratOfDecimal m.lngS| ≤ 180
  · rw [if_pos hr] at hc
    simp only [Option.some.injEq] at hc
    rw [← hc]
    exact hr
  · rw [if_neg hr] at hc
    simp at hc

/-- C6 witness: a valid embedded pair is returned and is in range. -/
theorem claim6_witness :
    (parseQuery gNone "take me to 12.5, 45.5").2 = some ⟨mkRat 25 2, mkRat 91 2⟩ ∧
    |(mkRat 25 2 : ℚ)| ≤ 90 ∧ |(mkRat 91 2 : ℚ)| ≤ 180 :=
  ⟨by decide,
   claim6_pair_range_validation gNone "take me to 12.5, 45.5" ⟨mkRat 25 2, mkRat 91 2⟩
     (by decide) (by decide) (by decide)⟩

/-- C6 counterexample: a maps URL in the `@lat,lng` convention with an
out-of-range pair is returned as-is (latitude 95.5 > 90, longitude
200.7 > 180), neither rejected nor clamped, contradicting the claim that
every produced coordinate is in range. -/
theorem claim6_counterexample :
    parseQuery gNone "https://www.google.com/maps/@95.5,200.7" =
      ("", some ⟨mkRat 191 2, mkRat 2007 10⟩) ∧
    ¬(|(mkRat 191 2 : ℚ)| ≤ 90) ∧ ¬(|(mkRat 2007 10 : ℚ)| ≤ 180) := by
  decide

/-! ### C7: bare-pair extraction and text removal -/

/-- C7 (amended): when no maps URL matches and the last bare-pair match of
the text is exactly an embedded pair substring `mid` between `pre` and
`post` whose two groups are in range, the extractor returns exactly that
pair and returns `pre` followed by `post` stripped of surrounding
whitespace -- the matched substring is removed, and the text after it is
additionally whitespace-stripped (so the result can differ from plain
substring removal); with several pair matches, the last one (closest to
the end of the text) is the one hypothesised, returned and removed. -/
theorem claim7_pair_removal :
    ∀ (g : String → Option Coord) (pre mid post : List Char) (ms : List PairMatch)
      (latS lngS : List Char),
      findUrlIn (pre ++ mid ++ post) = none →
      findPairs (pre ++ mid ++ post) = ms ++ [⟨pre.length, mid.length, latS, lngS⟩] →
      |ratOfDecimal latS| ≤ 90 →
      |ratOfDecimal lngS| ≤ 180 →
      parseQuery g (String.mk (pre ++ mid ++ post)) =
        (String.mk (pre ++ pyStripChars post),
         some ⟨ratOfDecimal latS, ratOfDecimal lngS⟩) := by
  intro g pre mid post ms latS lngS hu hp h90 h180
  have hTake : (pre ++ mid ++ post).take pre.length = pre := by
    rw [List.append_assoc]
    exact List.take_left pre (mid ++ post)
  have hDrop : (pre ++ mid ++ post).drop (pre.length + mid.length) = post := by
    rw [← List.length_append]
    exact List.drop_left (pre ++ mid) post
  rw [parseQuery]
  simp only [hu, hp, List.getLast?_concat]
  rw [if_pos ⟨h90, h180⟩]
  rw [hTake, hDrop]

/-- C7 witness: in a text containing two embedded pairs, the second (last)
pair is returned, and the returned text is the part before it followed by
the stripped part after it. -/
theorem claim7_witness :
    parseQuery gNone (String.mk ("go to 3.5, 4.5 or ".data ++ "12.5, 45.5".data ++ " now".data)) =
      (String.mk ("go to 3.5, 4.5 or ".data ++ pyStripChars (" now".data)),
       some ⟨ratOfDecimal ("12.5".data), ratOfDecimal ("45.5".data)⟩) ∧
    String.mk ("go to 3.5, 4.5 or ".data ++ "12.5, 45.5".data ++ " now".data) =
      "go to 3.5, 4.5 or 12.5, 45.5 now" ∧
    String.mk ("go to 3.5, 4.5 or ".data ++ pyStripChars (" now".data)) = "go to 3.5, 4.5 or now" ∧
    ratOfDecimal ("12.5".data) = mkRat 25 2 ∧ ratOfDecimal ("45.5".data) = mkRat 91 2 :=
  ⟨claim7_pair_removal gNone ("go to 3.5, 4.5 or ".data) ("12.5, 45.5".data) (" now".data)
     [⟨6, 8, "3.5".data, "4.5".data⟩] ("12.5".data) ("45.5".data)
     (by decide) (by decide) (by decide) (by decide),
   by decide, by decide, by decide, by decide⟩

/-- C7 counterexample: for the text "1.5, 2.5 here" the claim as stated
says the returned text is the input with the matched pair substring
removed, which is " here" (with its leading space); the extractor instead
strips the tail and returns "here". -/
theorem claim7_counterexample :
    (parseQuery gNone "1.5, 2.5 here").1 = "here" ∧
    (parseQuery gNone "1.5, 2.5 here").2 = some ⟨mkRat 3 2, mkRat 5 2⟩ ∧
    ("here" : String) ≠ " here" := by
  decide

/-! ### C5: the per-turn location decision -/

/-- C5 (amended): the location used for a turn is decided in this order:
(1) a coordinate freshly extracted from the turn wins; (2) otherwise, if
the original query text (lowercased) -- not the cleaned text -- contains
one of the fixed back-reference phrases and the session has a stored
location, that location is reused; (3) otherwise no location.  In
particular, a session with stored location {1, 2} and input "what about
there?" (from which no coordinate is extracted) calls the assistant with
{1, 2}. -/
theorem claim5_location_decision :
    (∀ (q : String) (ex ll : Option Coord) (c : Coord),
       ex = some c → turnLocation q ex ll = some c) ∧
    (∀ (q : String) (l : Coord),
       referencesPrevLocation q = true →
       turnLocation q none (some l) = some l) ∧
    (∀ (q : String) (ll : Option Coord),
       referencesPrevLocation q = false → turnLocation q none ll = none) ∧
    (∀ q : String, turnLocation q none none = none) ∧
    ((assistantParseQuery gNone "what about there?").2 = none ∧
     (appProcessQuery probeAssistant gNone "emg" (some "what about there?")
         (some "session_A") (some ⟨[], some ⟨1, 2⟩⟩)).1.result = some "used stored location") := by
  refine ⟨?_, ?_, ?_, ?_, by decide, by decide⟩
  · intro q ex ll c hex
    rw [hex, turnLocation]
  · intro q l href
    rw [turnLocation]
    simp [href]
  · intro q ll href
    rw [turnLocation]
    simp [href]
  · intro q
    rw [turnLocation]
    simp

/-- C5 witness: the three decision clauses applied at concrete inputs. -/
theorem claim5_witness :
    turnLocation "anything" (some ⟨3, 4⟩) none = some ⟨3, 4⟩ ∧
    turnLocation "go there" none (some ⟨5, 6⟩) = some ⟨5, 6⟩ ∧
    turnLocation "hello" none (some ⟨5, 6⟩) = none :=
  ⟨claim5_location_decision.1 "anything" (some ⟨3, 4⟩) none ⟨3, 4⟩ rfl,
   claim5_location_decision.2.1 "go there" ⟨5, 6⟩ (by decide),
   claim5_location_decision.2.2.1 "hello" (some ⟨5, 6⟩) (by decide)⟩

/-- C5 counterexample: the claim keys the back-reference test to the
cleaned text.  For the query "https://www.google.com/maps/there" the
cleaned text is "" (the URL is stripped) and contains no back-reference
phrase, so under the claim no location would be used; but the handler
tests the raw query, which contains "there" inside the URL, and therefore
reuses the stored location {1, 2}. -/
theorem claim5_counterexample :
    (parseQuery gNone "https://www.google.com/maps/there").1 = "" ∧
    (parseQuery gNone "https://www.google.com/maps/there").2 = none ∧
    referencesPrevLocation "" = false ∧
    referencesPrevLocation "https://www.google.com/maps/there" = true ∧
    (appProcessQuery probeAssistant gNone "emg" (some "https://www.google.com/maps/there")
        (some "session_B") (some ⟨[], some ⟨1, 2⟩⟩)).1.result = some "used stored location" := by
  decide

/-! ### C1: session state across failed turns -/

/-- C1 (amended): an exception that propagates out of the query-processing
call makes the handler answer 500 without touching the stored session (no
history appended, no stored location overwritten).  However, a
provider-call exception inside the tool-calling loop does not propagate:
`_handle_general_query` catches it and returns an error string, and the
handler then persists the turn as a normal successful one -- the user
message and the error string are appended to the session history and,
when coordinates were extracted from the query, the stored location is
overwritten with them. -/
theorem claim1_session_state :
    (∀ (ac : String → Option ℚ → Option ℚ → Except String String)
       (g : String → Option Coord) (emg q sid : String) (s : SessionData),
       (∀ la lo, ∃ e, ac q la lo = Except.error e) →
       (appProcessQuery ac g emg (some q) (some sid) (some s)).2 = some s ∧
       (appProcessQuery ac g emg (some q) (some sid) (some s)).1.httpStatus = 500 ∧
       (appProcessQuery ac g emg (some q) (some sid) (some s)).1.status = "error") ∧
    (∀ (env : AssistEnv) (emg q sid m parsed : String) (c : Coord) (s : SessionData),
       parseQuery env.geocode q = (parsed, some c) →
       isLandPurchaseQuery parsed = false →
       isBusinessQuery parsed = none →
       env.provider 0 = ProviderResponse.raises m →
       pyIn "no valid address" (pyLower ("Error processing your request: " ++ m)) = false →
       (appProcessQuery (mkAssistantCall env) env.geocode emg (some q) (some sid) (some s)).2 =
         some ⟨s.chatHistory ++
             [⟨"user", q⟩, ⟨"assistant", "Error processing your request: " ++ m⟩],
           some c⟩ ∧
       (appProcessQuery (mkAssistantCall env) env.geocode emg (some q) (some sid) (some s)).1.status
         = "success") := by
  constructor
  · intro ac g emg q sid s h
    cases hloc : turnLocation q (assistantParseQuery g q).2 s.lastLocation with
    | some c =>
      obtain ⟨e, he⟩ := h (some c.lat) (some c.lng)
      refine ⟨?_, ?_, ?_⟩ <;> simp [appProcessQuery, hloc, he]
    | none =>
      obtain ⟨e, he⟩ := h none none
      refine ⟨?_, ?_, ?_⟩ <;> simp [appProcessQuery, hloc, he]
  · intro env emg q sid m parsed c s hparse hland hbiz hprov hno
    have hpe : assistantParseQuery env.geocode q = (parsed, some c) := by
      rw [assistantParseQuery, hparse]
    have hloop : handleGeneralQuery env.provider env.toolExec parsed c.lat c.lng =
        "Error processing your request: " ++ m := by
      rw [handleGeneralQuery]
      show runToolLoop env.provider env.toolExec (4 + 1) 0 _ = _
      rw [runToolLoop, hprov]
    have hassist : assistantProcessQuery env q (some c.lat) (some c.lng) =
        "Error processing your request: " ++ m := by
      simp [assistantProcessQuery, hpe, hland, hbiz, hloop]
    constructor <;>
      simp [appProcessQuery, mkAssistantCall, hpe, hassist, hno, turnLocation]

/-- C1 witness: both clauses at concrete inputs: a raising assistant call
leaves the stored session untouched and yields 500; a provider exception
inside the tool loop of a turn that extracted coordinates ends with the
turn persisted and the stored location overwritten. -/
theorem claim1_witness :
    ((appProcessQuery acErr gNone "emg" (some "ping") (some "sid_a")
        (some ⟨[], some ⟨9, 9⟩⟩)).2 = some ⟨[], some ⟨9, 9⟩⟩ ∧
     (appProcessQuery acErr gNone "emg" (some "ping") (some "sid_a")
        (some ⟨[], some ⟨9, 9⟩⟩)).1.httpStatus = 500 ∧
     (appProcessQuery acErr gNone "emg" (some "ping") (some "sid_a")
        (some ⟨[], some ⟨9, 9⟩⟩)).1.status = "error") ∧
    ((appProcessQuery (mkAssistantCall envRaise) envRaise.geocode "emg"
        (some "hello 12.5, 45.5") (some "sid_b") (some ⟨[], some ⟨9, 9⟩⟩)).2 =
      some ⟨[⟨"user", "hello 12.5, 45.5"⟩,
             ⟨"assistant", "Error processing your request: " ++ "boom"⟩],
        some ⟨mkRat 25 2, mkRat 91 2⟩⟩ ∧
     (appProcessQuery (mkAssistantCall envRaise) envRaise.geocode "emg"
        (some "hello 12.5, 45.5") (some "sid_b") (some ⟨[], some ⟨9, 9⟩⟩)).1.status
       = "success") :=
  ⟨claim1_session_state.1 acErr gNone "emg" "ping" "sid_a" ⟨[], some ⟨9, 9⟩⟩
     (fun _ _ => ⟨"kaput", rfl⟩),
   claim1_session_state.2 envRaise "emg" "hello 12.5, 45.5" "sid_b" "boom" "hello "
     ⟨mkRat 25 2, mkRat 91 2⟩ ⟨[], some ⟨9, 9⟩⟩
     (by decide) (by decide) (by decide) rfl (by decide)⟩

/-- C1 counterexample: the claim says a provider-call exception inside the
tool-calling loop leaves the session unchanged.  Here the provider raises
on its first call, yet after the turn the session history has the user
message and the error string appended, and the stored location {9, 9} has
been overwritten by the coordinates {12.5, 45.5} extracted that turn. -/
theorem claim1_counterexample :
    envRaise.provider 0 = ProviderResponse.raises "boom" ∧
    (appProcessQuery (mkAssistantCall envRaise) gNone "emg" (some "hi from 12.5, 45.5")
        (some "sid_c") (some ⟨[], some ⟨9, 9⟩⟩)).2 =
      some ⟨[⟨"user", "hi from 12.5, 45.5"⟩,
             ⟨"assistant", "Error processing your request: boom"⟩],
        some ⟨mkRat 25 2, mkRat 91 2⟩⟩ := by
  decide

/-! ### C9: endpoint status conventions -/

/-- C9 (amended): a request with no query gets 400 with an error status
and an untouched store; an exception propagating out of query processing
gets 500 with an error status; an assistant answer reporting no valid
address gets 200 with a warning status and the stripped client session id
echoed back.  A provider error inside the general tool-calling loop,
however, is caught and surfaced as a normal 200 success whose result is
an error string (see the counterexample), not as a 500. -/
theorem claim9_status_conventions :
    (∀ (ac : String → Option ℚ → Option ℚ → Except String String)
       (g : String → Option Coord) (emg : String) (sid0 : Option String)
       (store : Option SessionData),
       (appProcessQuery ac g emg none sid0 store).1.httpStatus = 400 ∧
       (appProcessQuery ac g emg none sid0 store).1.status = "error" ∧
       (appProcessQuery ac g emg none sid0 store).2 = store) ∧
    (∀ (ac : String → Option ℚ → Option ℚ → Except String String)
       (g : String → Option Coord) (emg q sid : String) (s : SessionData),
       (∀ la lo, ∃ e, ac q la lo = Except.error e) →
       (appProcessQuery ac g emg (some q) (some sid) (some s)).1.httpStatus = 500 ∧
       (appProcessQuery ac g emg (some q) (some sid) (some s)).1.status = "error") ∧
    (∀ (ac : String → Option ℚ → Option ℚ → Except String String)
       (g : String → Option Coord) (emg q sid : String) (s : SessionData) (r : String),
       (∀ la lo, ac q la lo = Except.ok r) →
       pyIn "no valid address" (pyLower r) = true →
       sid ≠ "" →
       (appProcessQuery ac g emg (some q) (some sid) (some s)).1.httpStatus = 200 ∧
       (appProcessQuery ac g emg (some q) (some sid) (some s)).1.status = "warning" ∧
       (appProcessQuery ac g emg (some q) (some sid) (some s)).1.sessionId
         = some (pyStrip sid) ∧
       (appProcessQuery ac g emg (some q) (some sid) (some s)).2 = some s) := by
  refine ⟨?_, ?_, ?_⟩
  · intro ac g emg sid0 store
    refine ⟨rfl, rfl, rfl⟩
  · intro ac g emg q sid s h
    cases hloc : turnLocation q (assistantParseQuery g q).2 s.lastLocation with
    | some c =>
      obtain ⟨e, he⟩ := h (some c.lat) (some c.lng)
      refine ⟨?_, ?_⟩ <;> simp [appProcessQuery, hloc, he]
    | none =>
      obtain ⟨e, he⟩ := h none none
      refine ⟨?_, ?_⟩ <;> simp [appProcessQuery, hloc, he]
  · intro ac g emg q sid s r h hno hsid
    cases hloc : turnLocation q (assistantParseQuery g q).2 s.lastLocation with
    | some c =>
      refine ⟨?_, ?_, ?_, ?_⟩ <;> simp [appProcessQuery, hloc, h, hno, hsid]
    | none =>
      refine ⟨?_, ?_, ?_, ?_⟩ <;> simp [appProcessQuery, hloc, h, hno, hsid]

/-- C9 witness: the three clauses at concrete inputs. -/
theorem claim9_witness :
    (appProcessQuery acErr gNone "emg" none (some "sid_d") none).1.httpStatus = 400 ∧
    (appProcessQuery acErr gNone "emg" (some "ask here") (some "sid_d")
        (some ⟨[], none⟩)).1.httpStatus = 500 ∧
    (appProcessQuery acNoAddr gNone "emg" (some "ask here") (some "sid_d")
        (some ⟨[], none⟩)).1.status = "warning" ∧
    (appProcessQuery acNoAddr gNone "emg" (some "ask here") (some "sid_d")
        (some ⟨[], none⟩)).1.sessionId = some "sid_d" := by
  have h1 := (claim9_status_conventions.1 acErr gNone "emg" (some "sid_d") none).1
  have h2 := (claim9_status_conventions.2.1 acErr gNone "emg" "ask here" "sid_d"
    ⟨[], none⟩ (fun _ _ => ⟨"kaput", rfl⟩)).1
  have h3 := claim9_status_conventions.2.2 acNoAddr gNone "emg" "ask here" "sid_d"
    ⟨[], none⟩ "no valid address" (fun _ _ => rfl) (by decide) (by decide)
  refine ⟨h1, h2, h3.2.1, ?_⟩
  rw [h3.2.2.1]
  decide

/-- C9 counterexample: the claim says a provider error while answering
receives HTTP 500 with an error status; but when the completion provider
raises inside the general tool-calling loop, the turn is answered with
HTTP 200 and a success status whose result is the caught error string. -/
theorem claim9_counterexample :
    envDown.provider 0 = ProviderResponse.raises "provider down" ∧
    (appProcessQuery (mkAssistantCall envDown) gNone "emg" (some "hi from 10.5, 20.5")
        (some "sid_e") (some ⟨[], none⟩)).1.httpStatus = 200 ∧
    (appProcessQuery (mkAssistantCall envDown) gNone "emg" (some "hi from 10.5, 20.5")
        (some "sid_e") (some ⟨[], none⟩)).1.status = "success" ∧
    (appProcessQuery (mkAssistantCall envDown) gNone "emg" (some "hi from 10.5, 20.5")
        (some "sid_e") (some ⟨[], none⟩)).1.result =
      some "Error processing your request: provider down" := by
  decide
